import Mathlib

/-!
Verification development for the LLM Voice Chat repository.

The repository is Python glue code: it loads JSON configuration
(`app_config.py`), validates it (`config_validator.py`), dispatches user
messages to a remote (OpenAI) or local (Ollama) language-model backend
(`model_utils.py`), and speaks responses aloud (`text_to_speech.py`).

This file gives a shallow embedding of those modules.  JSON/Python values
are modelled by `PyVal` (note that, as in Python, `bool` is a subtype of
`int` for `isinstance` checks), Python dictionaries by association lists,
raised exceptions by `Except PyErr`, environment variables and the file
system by explicit function parameters, and the external LLM / LangChain
objects by oracle functions supplied as parameters.
-/

namespace LLMVoiceChat

/-- A Python value as produced by `json.load` and handled by the
configuration code: `None`, booleans, integers, floats, strings, lists and
string-keyed dictionaries.  Floats are represented by rationals; no claim
depends on float arithmetic or formatting. -/
inductive PyVal where
  | none : PyVal
  | bool (b : Bool) : PyVal
  | int (n : Int) : PyVal
  | float (q : Rat) : PyVal
  | str (s : String) : PyVal
  | list (elems : List PyVal) : PyVal
  | dict (entries : List (String × PyVal)) : PyVal
deriving Repr, Inhabited

mutual

/-- Structural (Python `==`) equality test on `PyVal`. -/
def PyVal.beq : PyVal → PyVal → Bool
  | .none, .none => true
  | .bool a, .bool b => a == b
  | .int a, .int b => a == b
  | .float a, .float b => a == b
  | .str a, .str b => a == b
  | .list xs, .list ys => beqList xs ys
  | .dict xs, .dict ys => beqDict xs ys
  | _, _ => false

/-- Elementwise equality test on lists of `PyVal`. -/
def beqList : List PyVal → List PyVal → Bool
  | [], [] => true
  | x :: xs, y :: ys => PyVal.beq x y && beqList xs ys
  | _, _ => false

/-- Entrywise equality test on dictionary entry lists. -/
def beqDict : List (String × PyVal) → List (String × PyVal) → Bool
  | [], [] => true
  | (k, v) :: xs, (k', v') :: ys => k == k' && PyVal.beq v v' && beqDict xs ys
  | _, _ => false

end

theorem PyVal.beq_iff_eq (a b : PyVal) : PyVal.beq a b = true ↔ a = b := by
  refine PyVal.beq.induct
    (fun a b => PyVal.beq a b = true ↔ a = b)
    (fun xs ys => beqDict xs ys = true ↔ xs = ys)
    (fun xs ys => beqList xs ys = true ↔ xs = ys)
    ?_ ?_ ?_ ?_ ?_ ?_ ?_ ?_ ?_ ?_ ?_ ?_ ?_ ?_ a b
  · simp [PyVal.beq]
  · intro a b; simp [PyVal.beq]
  · intro a b; simp [PyVal.beq]
  · intro a b; simp [PyVal.beq]
  · intro a b; simp [PyVal.beq]
  · intro xs ys ih; simpa [PyVal.beq] using ih
  · intro xs ys ih; simpa [PyVal.beq] using ih
  · intro t x h1 h2 h3 h4 h5 h6 h7
    cases t <;> cases x <;>
      first
        | exact (h1 rfl rfl).elim
        | exact (h2 _ _ rfl rfl).elim
        | exact (h3 _ _ rfl rfl).elim
        | exact (h4 _ _ rfl rfl).elim
        | exact (h5 _ _ rfl rfl).elim
        | exact (h6 _ _ rfl rfl).elim
        | exact (h7 _ _ rfl rfl).elim
        | simp [PyVal.beq]
  · simp [beqList]
  · intro x xs y ys ih1 ih2; simp [beqList, ih1, ih2]
  · intro t x h1 h2
    cases t <;> cases x <;>
      first
        | exact (h1 rfl rfl).elim
        | exact (h2 _ _ _ _ rfl rfl).elim
        | simp [beqList]
  · simp [beqDict]
  · intro k v xs k' v' ys ih1 ih2; simp [beqDict, ih1, ih2, and_assoc]
  · intro t x h1 h2
    cases t <;> cases x <;>
      first
        | exact (h1 rfl rfl).elim
        | (rename_i p ps q qs; exact (h2 p.1 p.2 ps q.1 q.2 qs (by simp) (by simp)).elim)
        | simp [beqDict]

instance : DecidableEq PyVal := fun a b => decidable_of_iff _ (PyVal.beq_iff_eq a b)

/-- A Python dictionary with string keys, in insertion order. -/
abbrev PyDict := List (String × PyVal)

/-- First value bound to `k`, if any (Python `d[k]` / `k in d`). -/
def dlookup (d : PyDict) (k : String) : Option PyVal :=
  match d with
  | [] => Option.none
  | (k', v) :: rest => if k' = k then some v else dlookup rest k

/-- Python `k in d` for a dictionary. -/
def hasKey (d : PyDict) (k : String) : Bool :=
  (dlookup d k).isSome

/-- Python `d.get(k, default)`. -/
def dgetD (d : PyDict) (k : String) (default : PyVal) : PyVal :=
  (dlookup d k).getD default

/-- Python `d[k] = v`: replace the value in place if the key exists
(keeping its position), otherwise append the new entry. -/
def dictSet (d : PyDict) (k : String) (v : PyVal) : PyDict :=
  if hasKey d k then d.map (fun kv => if kv.1 = k then (k, v) else kv)
  else d ++ [(k, v)]

/-- Python truthiness of a value (`if x:`). -/
def truthy : PyVal → Bool
  | .none => false
  | .bool b => b
  | .int n => n != 0
  | .float q => q != 0
  | .str s => s != ""
  | .list xs => !xs.isEmpty
  | .dict kvs => !kvs.isEmpty

/-- Python `isinstance(v, bool)`. -/
def PyVal.isBool : PyVal → Bool
  | .bool _ => true
  | _ => false

/-- Python `isinstance(v, int)`.  In Python `bool` is a subclass of `int`,
so booleans pass this check. -/
def PyVal.isInt : PyVal → Bool
  | .bool _ => true
  | .int _ => true
  | _ => false

/-- Python `isinstance(v, str)`. -/
def PyVal.isStr : PyVal → Bool
  | .str _ => true
  | _ => false

/-- Python `isinstance(v, dict)`. -/
def PyVal.isDict : PyVal → Bool
  | .dict _ => true
  | _ => false

/-- Python `isinstance(v, list)`. -/
def PyVal.isList : PyVal → Bool
  | .list _ => true
  | _ => false

/-- Python `isinstance(v, (int, float))` (booleans count as ints). -/
def PyVal.isNumber : PyVal → Bool
  | .bool _ => true
  | .int _ => true
  | .float _ => true
  | _ => false

mutual

/-- Python `repr(v)`.  Only its behaviour on the values the claims exercise
matters: strings are wrapped in single quotes (Python's escaping of quotes
inside the string is not modelled, no claim exercises it), and float
rendering is approximated by the rational's decimal form. -/
def pyRepr : PyVal → String
  | .none => "None"
  | .bool true => "True"
  | .bool false => "False"
  | .int n => toString n
  | .float q => toString q
  | .str s => "\x27" ++ s ++ "\x27"
  | .list xs => "[" ++ pyReprJoinList xs ++ "]"
  | .dict kvs => "\x7b" ++ pyReprJoinDict kvs ++ "\x7d"

/-- Comma-separated `repr`s of list elements. -/
def pyReprJoinList : List PyVal → String
  | [] => ""
  | [x] => pyRepr x
  | x :: xs => pyRepr x ++ ", " ++ pyReprJoinList xs

/-- Comma-separated `repr`s of dictionary entries. -/
def pyReprJoinDict : List (String × PyVal) → String
  | [] => ""
  | [(k, v)] => "\x27" ++ k ++ "\x27: " ++ pyRepr v
  | (k, v) :: kvs => "\x27" ++ k ++ "\x27: " ++ pyRepr v ++ ", " ++ pyReprJoinDict kvs

end

/-- Python `str(v)` (used by f-string interpolation): the identity on
strings, `repr` otherwise. -/
def pyStr : PyVal → String
  | .str s => s
  | v => pyRepr v

/-- Python `"\n".join(lines)`. -/
def joinLines : List String → String
  | [] => ""
  | [x] => x
  | x :: xs => x ++ "\n" ++ joinLines xs

/-- Python substring test `needle in hay` on strings (contiguous
substring; the empty string is a substring of everything). -/
def strInB (needle hay : String) : Bool :=
  decide (needle.data <:+: hay.data)

/-- Python `s.lower()`, character by character (the platform strings and
configuration keys involved are ASCII). -/
def strLower (s : String) : String :=
  ⟨s.data.map Char.toLower⟩

/-- A raised Python exception, by class and message.  Only the classes the
embedded code can raise are represented. -/
inductive PyErr where
  | keyError (key : String) : PyErr
  | typeError (msg : String) : PyErr
  | valueError (msg : String) : PyErr
  | attributeError (msg : String) : PyErr
deriving DecidableEq, Repr

/-- Python environment: maps a variable name to its value when set.
`os.getenv` returns `None` for unset variables. -/
def Env := String → Option String

/-- Truthiness of `os.getenv(k)` (unset and empty-string are both falsy). -/
def envTruthy (env : Env) (k : String) : Bool :=
  match env k with
  | Option.none => false
  | some s => s != ""

/-- Python subscript `container[key]` for a string key: dictionary lookup
(`KeyError` when absent); lists and strings reject string indices with
`TypeError`; other values are not subscriptable. -/
def pyGetItem (container : PyVal) (key : String) : Except PyErr PyVal :=
  match container with
  | .dict d =>
    match dlookup d key with
    | some v => Except.ok v
    | Option.none => Except.error (.keyError key)
  | .list _ => Except.error (.typeError "list indices must be integers or slices, not str")
  | .str _ => Except.error (.typeError "string indices must be integers")
  | _ => Except.error (.typeError "object is not subscriptable")

/-- Python membership `needle in container`: substring test for strings
(`TypeError` when the left operand is not a string), `==`-membership for
lists, key membership for dictionaries (non-string needles never match the
string keys), `TypeError` for non-containers. -/
def pyInOp (needle container : PyVal) : Except PyErr Bool :=
  match container with
  | .str s =>
    match needle with
    | .str n => Except.ok (strInB n s)
    | _ => Except.error (.typeError "in <string> requires string as left operand")
  | .list xs => Except.ok (xs.contains needle)
  | .dict kvs =>
    match needle with
    | .str k => Except.ok (hasKey kvs k)
    | _ => Except.ok false
  | _ => Except.error (.typeError "argument is not iterable")

/-- Python iteration `for x in v`: lists yield elements, strings yield
one-character strings, dictionaries yield their keys; other values raise
`TypeError`. -/
def pyIter : PyVal → Except PyErr (List PyVal)
  | .list xs => Except.ok xs
  | .str s => Except.ok (s.data.map (fun c => PyVal.str c.toString))
  | .dict kvs => Except.ok (kvs.map (fun kv => PyVal.str kv.1))
  | _ => Except.error (.typeError "object is not iterable")

/-- Python `container.get(key, default)`: only dictionaries have `.get`;
every other value raises `AttributeError`. -/
def pyGet (container : PyVal) (key : String) (default : PyVal) : Except PyErr PyVal :=
  match container with
  | .dict d => Except.ok (dgetD d key default)
  | _ => Except.error (.attributeError "object has no attribute get")

/-!
## `config_validator.py`

Each validator returns Python's `(is_valid, error_messages)` pair, or the
exception it raises.  Error messages are reproduced verbatim from the
source (single quotes and braces written with `\x27`/`\x7b`/`\x7d`
escapes).
-/

/-- The source's required-field pattern:
`if "k" not in config: ...missing... elif not isinstance(config["k"], T): ...type error...`. -/
def checkReqField (config : PyVal) (key : String) (passes : PyVal → Bool)
    (tyMsg : String) (errors : List String) : Except PyErr (List String) := do
  let b ← pyInOp (.str key) config
  if !b then
    pure (errors ++ ["Missing required field: \x27" ++ key ++ "\x27"])
  else do
    let v ← pyGetItem config key
    pure (if !passes v then errors ++ [tyMsg] else errors)

/-- The source's optional-field pattern:
`if "k" in config and not isinstance(config["k"], T): ...type error...`. -/
def checkOptField (config : PyVal) (key : String) (passes : PyVal → Bool)
    (tyMsg : String) (errors : List String) : Except PyErr (List String) := do
  let b ← pyInOp (.str key) config
  if b then do
    let v ← pyGetItem config key
    pure (if !passes v then errors ++ [tyMsg] else errors)
  else
    pure errors

/-- `validate_model_config` (config_validator.py:26-89).  `env` stands for
`os.environ`, read through `os.getenv`. -/
def validate_model_config (env : Env) (config : PyVal) : Except PyErr (Bool × List String) := do
  let errors ← checkReqField config "use_remote_model" PyVal.isBool
    "\x27use_remote_model\x27 must be a boolean (true/false)" []
  -- "model_source" must be one of the two supported literals.
  let errors ← (do
    let b ← pyInOp (.str "model_source") config
    if !b then
      pure (errors ++ ["Missing required field: \x27model_source\x27"])
    else do
      let v ← pyGetItem config "model_source"
      pure (if v = PyVal.str "OpenAI" ∨ v = PyVal.str "Ollama" then errors
        else errors ++ ["Invalid \x27model_source\x27: \x27" ++ pyStr v ++
          "\x27. Must be \x27OpenAI\x27 or \x27Ollama\x27"]))
  let errors ← checkReqField config "model_name" PyVal.isStr
    "\x27model_name\x27 must be a string" errors
  let errors ← checkReqField config "model_parameters" PyVal.isDict
    "\x27model_parameters\x27 must be a dictionary" errors
  -- OpenAI-specific check: the API key must be present in the environment.
  let urm ← pyGet config "use_remote_model" PyVal.none
  let ms ← pyGet config "model_source" PyVal.none
  let errors :=
    if truthy urm && (ms = PyVal.str "OpenAI") then
      if !envTruthy env "OPENAI_API_KEY" then
        errors ++ ["OPENAI_API_KEY environment variable is required for OpenAI models"]
      else errors
    else errors
  -- Ollama-specific checks: optional GPU fields must be typed correctly.
  let urm2 ← pyGet config "use_remote_model" (PyVal.bool true)
  let ms2 ← pyGet config "model_source" PyVal.none
  let errors ←
    if !truthy urm2 && (ms2 = PyVal.str "Ollama") then do
      let e1 ← checkOptField config "use_gpu" PyVal.isBool
        "\x27use_gpu\x27 must be a boolean if specified" errors
      checkOptField config "num_gpu" PyVal.isInt
        "\x27num_gpu\x27 must be an integer if specified" e1
    else
      pure errors
  pure (errors.isEmpty, errors)

/-- The loop `for var in config["input_variables"]: if f"{{{var}}}" not in
config["template"]: ...` of `validate_prompt_config`, collecting its error
messages in order. -/
def promptVarLoop (tmpl : PyVal) : List PyVal → Except PyErr (List String)
  | [] => Except.ok []
  | v :: vs => do
    let b ← pyInOp (.str ("\x7b" ++ pyStr v ++ "\x7d")) tmpl
    let rest ← promptVarLoop tmpl vs
    Except.ok ((if !b then
      ["Input variable \x27" ++ pyStr v ++ "\x27 not found in template string"]
      else []) ++ rest)

/-- `validate_prompt_config` (config_validator.py:92-121). -/
def validate_prompt_config (config : PyVal) : Except PyErr (Bool × List String) := do
  let errors ← checkReqField config "input_variables" PyVal.isList
    "\x27input_variables\x27 must be a list" []
  let errors ← checkReqField config "template" PyVal.isStr
    "\x27template\x27 must be a string" errors
  -- Verify input variables are referenced in the template.
  let b1 ← pyInOp (.str "input_variables") config
  let b2 ← pyInOp (.str "template") config
  if b1 && b2 then do
    let iv ← pyGetItem config "input_variables"
    let tmpl ← pyGetItem config "template"
    let vars ← pyIter iv
    let loopErrs ← promptVarLoop tmpl vars
    let errors := errors ++ loopErrs
    pure (errors.isEmpty, errors)
  else
    pure (errors.isEmpty, errors)

/-- `validate_response_config` (config_validator.py:124-163): all fields
optional, type-checked when present. -/
def validate_response_config (config : PyVal) : Except PyErr (Bool × List String) := do
  let errors ← checkOptField config "speak_responses" PyVal.isBool
    "\x27speak_responses\x27 must be a boolean if specified" []
  let errors ← checkOptField config "response_delay_time" PyVal.isNumber
    "\x27response_delay_time\x27 must be a number if specified" errors
  let errors ← checkOptField config "response_stream_lag_time" PyVal.isNumber
    "\x27response_stream_lag_time\x27 must be a number if specified" errors
  let errors ← checkOptField config "speech_rate_wpm" PyVal.isNumber
    "\x27speech_rate_wpm\x27 must be a number if specified" errors
  let errors ← checkOptField config "voice_name" PyVal.isStr
    "\x27voice_name\x27 must be a string if specified" errors
  pure (errors.isEmpty, errors)

/-- `validate_theme_config` (config_validator.py:166-196): all fields
optional, type-checked when present. -/
def validate_theme_config (config : PyVal) : Except PyErr (Bool × List String) := do
  let errors ← checkOptField config "app_name" PyVal.isStr
    "\x27app_name\x27 must be a string if specified" []
  let errors ← checkOptField config "source_theme" PyVal.isStr
    "\x27source_theme\x27 must be a string if specified" errors
  let errors ← checkOptField config "load_theme_from_hf_hub" PyVal.isBool
    "\x27load_theme_from_hf_hub\x27 must be a boolean if specified" errors
  let errors ← checkOptField config "font" PyVal.isList
    "\x27font\x27 must be a list if specified" errors
  pure (errors.isEmpty, errors)

/-- Outcome of `validate_all_configs`: normal return, a raised
`ConfigValidationError`, or a propagated exception from a section
validator. -/
inductive ValidateOutcome where
  | ok : ValidateOutcome
  | configError (msg : String) : ValidateOutcome
  | pyFail (e : PyErr) : ValidateOutcome
deriving DecidableEq, Repr

/-- `validate_all_configs` (config_validator.py:199-252): validates the
four sections in order, aggregates headed error blocks, and raises a
single `ConfigValidationError` carrying all messages if any section is
invalid. -/
def validate_all_configs (env : Env) (model_config prompt_config response_config theme_config : PyVal) :
    ValidateOutcome :=
  match validate_model_config env model_config with
  | Except.error e => .pyFail e
  | Except.ok (mv, merrs) =>
    match validate_prompt_config prompt_config with
    | Except.error e => .pyFail e
    | Except.ok (pv, perrs) =>
      match validate_response_config response_config with
      | Except.error e => .pyFail e
      | Except.ok (rv, rerrs) =>
        match validate_theme_config theme_config with
        | Except.error e => .pyFail e
        | Except.ok (tv, terrs) =>
          let all_errors :=
            (if mv then [] else "Model Configuration Errors:" :: merrs.map (fun e => "  - " ++ e)) ++
            (if pv then [] else "Prompt Configuration Errors:" :: perrs.map (fun e => "  - " ++ e)) ++
            (if rv then [] else "Response Configuration Errors:" :: rerrs.map (fun e => "  - " ++ e)) ++
            (if tv then [] else "Theme Configuration Errors:" :: terrs.map (fun e => "  - " ++ e))
          if all_errors.isEmpty then .ok
          else .configError ("Configuration validation failed:\n\n" ++ joinLines all_errors)

/-!
## `model_utils.py`

The external LangChain clients are modelled as opaque handles: an
`LLMHandle` carries the backend's `invoke` behaviour for a message list
(remote chat client) and for a plain string (local client), and `fmt`
stands for `system_prompt_template.format(question=...)` /
piping a string through the template.
-/

/-- Python dictionary subscript `d[k]` (`KeyError` when absent). -/
def ditem (d : PyDict) (k : String) : Except PyErr PyVal :=
  match dlookup d k with
  | some v => Except.ok v
  | Option.none => Except.error (.keyError k)

/-- The constructed client handle returned by `load_model`. -/
inductive LoadedModel where
  | chatOpenAI (modelName : PyVal) (modelParameters : PyDict) : LoadedModel
  | ollamaLLM (modelName : PyVal) (numGpu : PyVal) (modelParameters : PyDict) : LoadedModel
deriving DecidableEq, Repr

/-- `_load_open_ai_model` (model_utils.py:108-127):
`ChatOpenAI(model=config["model_name"], **config["model_parameters"])`. -/
def _load_open_ai_model (model_config : PyDict) : Except PyErr LoadedModel := do
  let name ← ditem model_config "model_name"
  let params ← ditem model_config "model_parameters"
  match params with
  | .dict ps => Except.ok (.chatOpenAI name ps)
  | _ => Except.error (.typeError "argument after ** must be a mapping")

/-- `_pull_ollama_model` (model_utils.py:130-150): shells out to
`ollama pull <model_name>`; the executed command is returned. -/
def _pull_ollama_model (model_config : PyDict) : Except PyErr String := do
  let name ← ditem model_config "model_name"
  Except.ok ("ollama pull " ++ pyStr name)

/-- `_load_ollama_model` (model_utils.py:153-188): GPU count is
`config.get("num_gpu", 1)` when `config.get("use_gpu", False)` is truthy,
`0` otherwise. -/
def _load_ollama_model (model_config : PyDict) : Except PyErr LoadedModel := do
  let num_gpu := if truthy (dgetD model_config "use_gpu" (.bool false))
    then dgetD model_config "num_gpu" (.int 1) else PyVal.int 0
  let name ← ditem model_config "model_name"
  let params ← ditem model_config "model_parameters"
  match params with
  | .dict ps => Except.ok (.ollamaLLM name num_gpu ps)
  | _ => Except.error (.typeError "argument after ** must be a mapping")

/-- `load_model` (model_utils.py:54-105).  Python's short-circuit order is
kept: with a truthy `use_remote_model` the first branch condition
subscripts `model_source`; with a falsy one the `elif` condition does. -/
def load_model (model_config : PyDict) : Except PyErr LoadedModel :=
  let urm := truthy (dgetD model_config "use_remote_model" (.bool false))
  if urm then
    match dlookup model_config "model_source" with
    | Option.none => Except.error (.keyError "model_source")
    | some ms =>
      if ms = PyVal.str "OpenAI" then _load_open_ai_model model_config
      else Except.error (.valueError "Model configuration not yet supported.")
  else
    match dlookup model_config "model_source" with
    | Option.none => Except.error (.keyError "model_source")
    | some ms =>
      if ms = PyVal.str "Ollama" then
        match _pull_ollama_model model_config with
        | Except.error e => Except.error e
        | Except.ok _ => _load_ollama_model model_config
      else Except.error (.valueError "Model configuration not yet supported.")

/-- One Gradio-format chat-history record, a `{"role": ..., "content": ...}`
dictionary. -/
structure Turn where
  role : PyVal
  content : PyVal
deriving DecidableEq, Repr

/-- A LangChain message object (`HumanMessage` / `AIMessage`). -/
inductive ChatMessage where
  | humanMessage (content : PyVal) : ChatMessage
  | aiMessage (content : PyVal) : ChatMessage
deriving DecidableEq, Repr

/-- The chat client's response object; `.content` is its text field. -/
structure AIResponse where
  content : String

/-- Opaque backend client: `invokeMessages` is `llm.invoke(<message list>)`
(remote chat model), `invokeText` is the local model's string-to-string
invocation. -/
structure LLMHandle where
  invokeMessages : List ChatMessage → AIResponse
  invokeText : String → String

/-- Loop body of `_get_open_ai_response` (model_utils.py:305-311):
`HumanMessage` for role `"user"`, `AIMessage` for every other role, the
content passed through unchanged. -/
def historyToMessage (t : Turn) : ChatMessage :=
  if t.role = PyVal.str "user" then .humanMessage t.content else .aiMessage t.content

/-- Loop body of `_get_ollama_response` (model_utils.py:357-362): label
`"User"` for role `"user"`, `"Assistant"` for every other role, then
`f"{role}: {content}"`. -/
def historyToLine (t : Turn) : String :=
  (if t.role = PyVal.str "user" then "User" else "Assistant") ++ ": " ++ pyStr t.content

/-- `_get_open_ai_response` (model_utils.py:265-315). -/
def _get_open_ai_response (message : String) (message_history : Option (List Turn))
    (llm : LLMHandle) (fmt : String → String) (send_chat_history : Bool) : String :=
  let prompt_text := fmt message
  let message_history_list : List ChatMessage :=
    if send_chat_history then
      match message_history with
      | some h => if h.length > 0 then h.map historyToMessage else []
      | Option.none => []
    else []
  let msgs := message_history_list ++ [ChatMessage.humanMessage (.str prompt_text)]
  (llm.invokeMessages msgs).content

/-- `_get_ollama_response` (model_utils.py:318-372). -/
def _get_ollama_response (message : String) (history : Option (List Turn))
    (llm : LLMHandle) (fmt : String → String) (send_chat_history : Bool) : String :=
  let conversation_context :=
    if send_chat_history then
      match history with
      | some h =>
        if h.length > 0 then
          "Previous conversation:\n" ++ joinLines (h.map historyToLine) ++ "\n\n"
        else ""
      | Option.none => ""
    else ""
  let full_message := conversation_context ++ message
  llm.invokeText (fmt full_message)

/-- `get_llm_response` (model_utils.py:191-262).  Note that
`model_config["model_source"]` is subscripted unconditionally before the
dispatch, so a missing key is a `KeyError`, not the unsupported-combination
`ValueError`. -/
def get_llm_response (message : String) (history : Option (List Turn))
    (model_config : PyDict) (llm : LLMHandle) (fmt : String → String) : Except PyErr String :=
  let use_remote_model := truthy (dgetD model_config "use_remote_model" (.bool false))
  match dlookup model_config "model_source" with
  | Option.none => Except.error (.keyError "model_source")
  | some model_source =>
    let send_chat_history := truthy (dgetD model_config "send_chat_history" (.bool true))
    if use_remote_model && (model_source = PyVal.str "OpenAI") then
      Except.ok (_get_open_ai_response message history llm fmt send_chat_history)
    else if !use_remote_model && (model_source = PyVal.str "Ollama") then
      Except.ok (_get_ollama_response message history llm fmt send_chat_history)
    else
      Except.error (.valueError "Model configuration not yet supported.")

/-!
## `text_to_speech.py`

The host platform is a parameter (`platform.platform()`), and the pyttsx3
engine is modelled by the properties the code sets on it plus the system
voice table it exposes.
-/

/-- A system voice as reported by `engine.getProperty("voices")`. -/
structure Voice where
  name : String
  id : String
deriving DecidableEq, Repr

/-- The pyttsx3 engine state: the voices available on the host, and the
`voice` / `rate` properties (`Option.none` = never set, left at the
engine's own default). -/
structure TtsEngine where
  availableVoices : List Voice
  voiceProp : Option PyVal
  rateProp : Option PyVal
deriving DecidableEq, Repr

/-- `running_on_mac_os` (text_to_speech.py:98-106):
`"mac" in platform.platform().lower()`. -/
def running_on_mac_os (platformStr : String) : Bool :=
  strInB "mac" (strLower platformStr)

/-- `running_on_windows` (text_to_speech.py:109-117):
`"windows" in platform.platform().lower()`. -/
def running_on_windows (platformStr : String) : Bool :=
  strInB "windows" (strLower platformStr)

/-- `get_voice_id` (text_to_speech.py:120-145): id of the first voice whose
name equals `voice_name`, `None` otherwise. -/
def get_voice_id (voices : List Voice) (voice_name : PyVal) : Option String :=
  (voices.find? (fun v => PyVal.str v.name = voice_name)).map Voice.id

def _DEFAULT_WINDOWS_VOICE : String := "Microsoft David Desktop - English (United States)"

def _DEFAULT_MAC_OS_VOICE : String := "Samantha"

/-- `initialize_text_to_speech` (text_to_speech.py:35-95): chooses a
platform default voice name, creates the engine, sets the `voice` property
when a voice name was determined and the `rate` property from the config,
and returns `(speech_config, engine)`. -/
def initialize_text_to_speech (platformStr : String) (systemVoices : List Voice)
    (speech_config : PyDict) : PyDict × TtsEngine :=
  let voice_name : PyVal :=
    if running_on_windows platformStr then
      dgetD speech_config "voice_name" (.str _DEFAULT_WINDOWS_VOICE)
    else if running_on_mac_os platformStr then
      dgetD speech_config "voice_name" (.str _DEFAULT_MAC_OS_VOICE)
    else
      dgetD speech_config "voice_name" PyVal.none
  let engine : TtsEngine :=
    { availableVoices := systemVoices, voiceProp := Option.none, rateProp := Option.none }
  let engine :=
    if voice_name ≠ PyVal.none then
      { engine with voiceProp := some (match get_voice_id systemVoices voice_name with
          | some i => PyVal.str i
          | Option.none => PyVal.none) }
    else engine
  let engine := { engine with rateProp := some (dgetD speech_config "speech_rate_wpm" (.int 180)) }
  (speech_config, engine)

/-!
## `app_config.py`

The file system maps a path to its content's JSON parse: `wellFormed v`
for a file whose text is valid JSON denoting `v`, `malformed` for one that
raises `json.JSONDecodeError`, absence for `FileNotFoundError`.
-/

/-- A file on disk, seen through `json.load`. -/
inductive JsonFile where
  | wellFormed (v : PyVal) : JsonFile
  | malformed : JsonFile
deriving DecidableEq, Repr

/-- The file system as visible to `load_config`. -/
def FileSys := String → Option JsonFile

/-- Outcome of `load_config`: the parsed value, or process termination
(`sys.exit(1)` after the printed diagnostic). -/
inductive LoadResult where
  | ok (v : PyVal) : LoadResult
  | exited (code : Nat) : LoadResult
deriving DecidableEq, Repr

/-- `load_config` (app_config.py:19-49): returns the parsed JSON value of
the file, and exits with status 1 on a missing file or a JSON parse
error. -/
def load_config (fs : FileSys) (filepath : String) : LoadResult :=
  match fs filepath with
  | Option.none => .exited 1
  | some .malformed => .exited 1
  | some (.wellFormed v) => .ok v

/-- Writing `x` to `filepath` as JSON (`json.dump` and the file write are
Python-standard-library collaborators, outside this repository): the
resulting file is well-formed JSON whose parse is exactly `x`. -/
def writeJsonFile (fs : FileSys) (filepath : String) (x : PyVal) : FileSys :=
  fun q => if q = filepath then some (.wellFormed x) else fs q

/-- The attributes set by `AppConfig.__init__`. -/
structure AppConfigState where
  app_name : PyVal
  version : PyVal
  model_config : PyVal
  prompt_config : PyVal
  response_config : PyVal
  theme_config : PyVal
deriving DecidableEq, Repr

/-- Outcome of `AppConfig.__init__`: a constructed instance, process
termination, or an uncaught exception. -/
inductive InitOutcome where
  | ok (s : AppConfigState) : InitOutcome
  | exited (code : Nat) : InitOutcome
  | pyFail (e : PyErr) : InitOutcome
deriving DecidableEq, Repr

def _DEFAULT_CONFIG_PATH : String := "./config/unified_config_example.json"

/-- The validation tail of `AppConfig.__init__` (app_config.py:146-157):
`ConfigValidationError` is caught, printed and turned into `sys.exit(1)`;
any other exception from the validators propagates. -/
def appConfigValidate (env : Env) (s : AppConfigState) : InitOutcome :=
  match validate_all_configs env s.model_config s.prompt_config s.response_config s.theme_config with
  | .ok => .ok s
  | .configError _ => .exited 1
  | .pyFail e => .pyFail e

/-- `AppConfig.__init__` (app_config.py:95-157): loads the unified config
from `CONFIG_PATH` (with the documented default path), requires the
`model` and `prompt` sections, defaults `response`/`theme` to `{}`, copies
the top-level `app_name` into the theme section when the theme has none,
and optionally validates everything. -/
def AppConfig_init (env : Env) (fs : FileSys) (validate : Bool) : InitOutcome :=
  let config_path := (env "CONFIG_PATH").getD _DEFAULT_CONFIG_PATH
  match load_config fs config_path with
  | .exited c => .exited c
  | .ok cfgv =>
    match cfgv with
    | .dict config =>
      let app_name := dgetD config "app_name" (.str "LLM Voice Chat")
      let version := dgetD config "version" (.str "1.0.0")
      if !hasKey config "model" then .exited 1
      else if !hasKey config "prompt" then .exited 1
      else
        let model_config := dgetD config "model" PyVal.none
        let prompt_config := dgetD config "prompt" PyVal.none
        let response_config := dgetD config "response" (.dict [])
        let theme_config := dgetD config "theme" (.dict [])
        match pyInOp (.str "app_name") theme_config with
        | Except.error e => .pyFail e
        | Except.ok true =>
          let s : AppConfigState :=
            ⟨app_name, version, model_config, prompt_config, response_config, theme_config⟩
          if validate then appConfigValidate env s else .ok s
        | Except.ok false =>
          match theme_config with
          | .dict t =>
            let s : AppConfigState :=
              ⟨app_name, version, model_config, prompt_config, response_config,
                .dict (dictSet t "app_name" app_name)⟩
            if validate then appConfigValidate env s else .ok s
          | _ => .pyFail (.typeError "object does not support item assignment")
    | _ => .pyFail (.attributeError "object has no attribute get")

/-!
## Substring predicate

`SubstrOf needle hay` is Python's `needle in hay` on strings, stated
propositionally; it is what the aggregation claims about `validate_all_configs`
need.
-/

/-- `needle` occurs contiguously inside `hay`. -/
def SubstrOf (needle hay : String) : Prop :=
  ∃ s t, hay = s ++ needle ++ t

theorem SubstrOf.refl (a : String) : SubstrOf a a :=
  ⟨"", "", by rw [String.empty_append, String.append_empty]⟩

theorem SubstrOf.append_left (c : String) {a b : String} (h : SubstrOf a b) :
    SubstrOf a (c ++ b) := by
  obtain ⟨s, t, rfl⟩ := h
  exact ⟨c ++ s, t, by simp [String.append_assoc]⟩

theorem SubstrOf.append_right (c : String) {a b : String} (h : SubstrOf a b) :
    SubstrOf a (b ++ c) := by
  obtain ⟨s, t, rfl⟩ := h
  exact ⟨s, t ++ c, by simp [String.append_assoc]⟩

theorem SubstrOf.of_append_left (a b : String) : SubstrOf a (a ++ b) := by
  simpa using (SubstrOf.refl a).append_right b

theorem substrOf_joinLines {x : String} {l : List String} (hmem : x ∈ l) :
    SubstrOf x (joinLines l) := by
  induction l with
  | nil => cases hmem
  | cons y ys ih =>
    rcases List.mem_cons.mp hmem with rfl | hys
    · cases ys with
      | nil => exact SubstrOf.refl x
      | cons z zs =>
        show SubstrOf x (x ++ "\n" ++ joinLines (z :: zs))
        rw [String.append_assoc]
        exact SubstrOf.of_append_left x _
    · cases ys with
      | nil => cases hys
      | cons z zs =>
        show SubstrOf x (y ++ "\n" ++ joinLines (z :: zs))
        rw [String.append_assoc]
        exact ((ih hys).append_left "\n").append_left y

theorem substrOf_dash (e : String) : SubstrOf e ("  - " ++ e) :=
  ⟨"  - ", "", by rw [String.append_empty]⟩

theorem SubstrOf.trans {a b c : String} (h1 : SubstrOf a b) (h2 : SubstrOf b c) :
    SubstrOf a c := by
  obtain ⟨s, t, rfl⟩ := h1
  obtain ⟨u, v, rfl⟩ := h2
  exact ⟨u ++ s, t ++ v, by simp [String.append_assoc]⟩

theorem except_bind_ok {ε α β : Type} (a : α) (f : α → Except ε β) :
    ((Except.ok a : Except ε α) >>= f) = f a := rfl

theorem checkReqField_dict (d : PyDict) (k : String) (p : PyVal → Bool) (m : String)
    (errs : List String) :
    ∃ extra, checkReqField (PyVal.dict d) k p m errs = Except.ok (errs ++ extra) := by
  cases hdl : dlookup d k with
  | none =>
    refine ⟨["Missing required field: \x27" ++ k ++ "\x27"], ?_⟩
    simp [checkReqField, pyInOp, hasKey, hdl]
    rfl
  | some v =>
    by_cases hp : p v = true
    · refine ⟨[], ?_⟩
      simp [checkReqField, pyInOp, hasKey, hdl, pyGetItem, hp]
      rfl
    · refine ⟨[m], ?_⟩
      simp [checkReqField, pyInOp, hasKey, hdl, pyGetItem, hp]
      rfl

theorem checkOptField_dict_shape (d : PyDict) (k : String) (p : PyVal → Bool) (m : String)
    (errs : List String) :
    ∃ extra, checkOptField (PyVal.dict d) k p m errs = Except.ok (errs ++ extra) ∧
      (∀ v, dlookup d k = some v → p v = false → extra = [m]) := by
  cases hdl : dlookup d k with
  | none =>
    refine ⟨[], ?_, ?_⟩
    · simp [checkOptField, pyInOp, hasKey, hdl]
      rfl
    · intro v hv
      cases hv
  | some v =>
    by_cases hp : p v = true
    · refine ⟨[], ?_, ?_⟩
      · simp [checkOptField, pyInOp, hasKey, hdl, pyGetItem, hp]
        rfl
      · intro v' hv' hbad
        cases hv'
        rw [hp] at hbad
        cases hbad
    · refine ⟨[m], ?_, ?_⟩
      · simp [checkOptField, pyInOp, hasKey, hdl, pyGetItem, hp]
        rfl
      · intro _ _ _
        rfl

theorem strInB_iff (n h : String) : strInB n h = true ↔ SubstrOf n h := by
  unfold strInB SubstrOf
  rw [decide_eq_true_iff]
  constructor
  · rintro ⟨s, t, hst⟩
    refine ⟨⟨s⟩, ⟨t⟩, ?_⟩
    apply String.ext
    rw [String.data_append, String.data_append]
    exact hst.symm
  · rintro ⟨s, t, rfl⟩
    exact ⟨s.data, t.data, by simp [String.data_append]⟩

theorem checkReqField_dict_ok (d : PyDict) (k : String) (p : PyVal → Bool) (m : String)
    (errs : List String) (v : PyVal) (hv : dlookup d k = some v) (hp : p v = true) :
    checkReqField (PyVal.dict d) k p m errs = Except.ok errs := by
  simp [checkReqField, pyInOp, hasKey, hv, pyGetItem, hp]
  rfl

theorem promptVarLoop_str_shape (tmpl : String) (vs : List PyVal) :
    ∃ es, promptVarLoop (PyVal.str tmpl) vs = Except.ok es ∧
      (∀ v ∈ vs, strInB ("\x7b" ++ pyStr v ++ "\x7d") tmpl = false →
        ("Input variable \x27" ++ pyStr v ++ "\x27 not found in template string") ∈ es) ∧
      ((∀ v ∈ vs, strInB ("\x7b" ++ pyStr v ++ "\x7d") tmpl = true) → es = []) := by
  induction vs with
  | nil => exact ⟨[], rfl, by simp, fun _ => rfl⟩
  | cons v vs ih =>
    obtain ⟨es, hes, hmem, hall⟩ := ih
    by_cases hb : strInB ("\x7b" ++ pyStr v ++ "\x7d") tmpl = true
    · refine ⟨es, ?_, ?_, ?_⟩
      · simp [promptVarLoop, pyInOp, hes, hb]
        rfl
      · intro v' hv' hfalse
        rcases List.mem_cons.mp hv' with rfl | hvs
        · rw [hb] at hfalse; cases hfalse
        · exact hmem v' hvs hfalse
      · intro hforall
        exact hall (fun v' hv' => hforall v' (List.mem_cons_of_mem _ hv'))
    · have hb' : strInB ("\x7b" ++ pyStr v ++ "\x7d") tmpl = false := by
        cases hx : strInB ("\x7b" ++ pyStr v ++ "\x7d") tmpl with
        | true => exact absurd hx hb
        | false => rfl
      refine ⟨("Input variable \x27" ++ pyStr v ++ "\x27 not found in template string") :: es,
        ?_, ?_, ?_⟩
      · simp [promptVarLoop, pyInOp, hes, hb']
        rfl
      · intro v' hv' hfalse
        rcases List.mem_cons.mp hv' with rfl | hvs
        · exact List.mem_cons_self _ _
        · exact List.mem_cons_of_mem _ (hmem v' hvs hfalse)
      · intro hforall
        exact absurd (hforall v (List.mem_cons_self _ _)) hb

theorem dlookup_mapset_self (d : PyDict) (k : String) (v : PyVal) :
    dlookup (d.map (fun kv => if kv.1 = k then (k, v) else kv)) k =
      (dlookup d k).map (fun _ => v) := by
  induction d with
  | nil => rfl
  | cons kv rest ih =>
    obtain ⟨k1, w⟩ := kv
    by_cases hk : k1 = k
    · subst hk
      simp only [List.map_cons, eq_self_iff_true, if_true]
      simp [dlookup]
    · simp only [List.map_cons]
      rw [if_neg hk]
      simp [dlookup, hk, ih]

theorem dlookup_mapset_ne (d : PyDict) (k k' : String) (v : PyVal) (hne : k' ≠ k) :
    dlookup (d.map (fun kv => if kv.1 = k then (k, v) else kv)) k' = dlookup d k' := by
  induction d with
  | nil => rfl
  | cons kv rest ih =>
    obtain ⟨k1, w⟩ := kv
    by_cases hk : k1 = k
    · subst hk
      simp only [List.map_cons, eq_self_iff_true, if_true]
      simp [dlookup, Ne.symm hne, ih]
    · simp only [List.map_cons]
      rw [if_neg hk]
      by_cases hk' : k1 = k'
      · simp [dlookup, hk']
      · simp [dlookup, hk', ih]

theorem dlookup_append_single (d : PyDict) (k k' : String) (v : PyVal) :
    dlookup (d ++ [(k, v)]) k' =
      match dlookup d k' with
      | some w => some w
      | Option.none => if k = k' then some v else Option.none := by
  induction d with
  | nil => rfl
  | cons kv rest ih =>
    obtain ⟨k1, w⟩ := kv
    by_cases hk' : k1 = k'
    · simp [dlookup, hk']
    · simp [dlookup, hk', ih]

theorem dlookup_dictSet_self (d : PyDict) (k : String) (v : PyVal) :
    dlookup (dictSet d k v) k = some v := by
  unfold dictSet hasKey
  cases hd : dlookup d k with
  | none => simp [dlookup_append_single, hd]
  | some w => simp [dlookup_mapset_self, hd]

theorem dlookup_dictSet_ne (d : PyDict) (k k' : String) (v : PyVal) (hne : k' ≠ k) :
    dlookup (dictSet d k v) k' = dlookup d k' := by
  unfold dictSet hasKey
  cases hd : dlookup d k with
  | none =>
    cases hd' : dlookup d k' with
    | none => simp [dlookup_append_single, hd', Ne.symm hne]
    | some w => simp [dlookup_append_single, hd']
  | some w => simp [dlookup_mapset_ne, hne]

theorem appConfigValidate_ok_inv (env : Env) (s s' : AppConfigState)
    (h : appConfigValidate env s' = InitOutcome.ok s) : s = s' := by
  unfold appConfigValidate at h
  cases hv : validate_all_configs env s'.model_config s'.prompt_config s'.response_config
      s'.theme_config with
  | ok => rw [hv] at h; injection h with h1; exact h1.symm
  | configError msg => rw [hv] at h; simp at h
  | pyFail e => rw [hv] at h; simp at h

theorem historyToMessage_eq_fun :
    historyToMessage = fun t : Turn =>
      if t.role = PyVal.str "user" then ChatMessage.humanMessage t.content
      else ChatMessage.aiMessage t.content := rfl

theorem historyToLine_eq_fun :
    historyToLine = fun t : Turn =>
      (if t.role = PyVal.str "user" then "User" else "Assistant") ++ ": " ++ pyStr t.content := rfl

/-!
## Claim theorems
-/

/-- C1, counterexample: on a non-macOS host (a Linux platform string), calling
`initialize_text_to_speech` on `{"use_mac_os_speech": true}` returns a
configuration in which `use_mac_os_speech` is still `true`, not `false` as the
claim requires — the function never reads or rewrites that field. -/
theorem c1_counterexample :
    running_on_mac_os "Linux-6.8.0-x86_64-with-glibc2.35" = false ∧
    dlookup (initialize_text_to_speech "Linux-6.8.0-x86_64-with-glibc2.35" []
      [("use_mac_os_speech", PyVal.bool true)]).1 "use_mac_os_speech" = some (PyVal.bool true) ∧
    ¬ (dlookup (initialize_text_to_speech "Linux-6.8.0-x86_64-with-glibc2.35" []
      [("use_mac_os_speech", PyVal.bool true)]).1 "use_mac_os_speech" = some (PyVal.bool false)) := by
  refine ⟨by decide, rfl, by decide⟩

/-- C1 (amended): `initialize_text_to_speech` returns the speech configuration
dictionary unchanged on every platform — in particular a `use_mac_os_speech`
entry keeps whatever value it had, also on non-macOS hosts. -/
theorem c1_tts_config_returned_unchanged (platformStr : String) (systemVoices : List Voice)
    (speech_config : PyDict) :
    (initialize_text_to_speech platformStr systemVoices speech_config).1 = speech_config := rfl

/-- C2, counterexample: a model configuration with `use_gpu` present and
non-boolean, but `use_remote_model` true and `model_source` `"OpenAI"` (API
key present), validates with an EMPTY error list — contradicting the claim
that the `use_gpu`/`num_gpu` type checks apply regardless of
`use_remote_model` and `model_source`. -/
theorem c2_counterexample :
    validate_model_config
      (fun k => if k = "OPENAI_API_KEY" then some "test-key" else Option.none)
      (PyVal.dict [("use_remote_model", PyVal.bool true), ("model_source", PyVal.str "OpenAI"),
        ("model_name", PyVal.str "gpt-4o"), ("model_parameters", PyVal.dict []),
        ("use_gpu", PyVal.str "yes")]) = Except.ok (true, []) := rfl

/-- C2 (amended): in the only case where the source checks the GPU fields —
`use_remote_model` present and falsy and `model_source` equal to `"Ollama"`,
the local-backend combination — a present non-boolean `use_gpu`, or a present
non-integer `num_gpu` (non-integer in Python's sense: booleans count as
integers), makes `validate_model_config` return `is_valid` false together
with a non-empty error list containing the message for that field. -/
theorem c2_gpu_checks (env : Env) (config : PyDict)
    (hurm : truthy (dgetD config "use_remote_model" (PyVal.bool true)) = false)
    (hsrc : dgetD config "model_source" PyVal.none = PyVal.str "Ollama") :
    (∀ gv, dlookup config "use_gpu" = some gv → gv.isBool = false →
      ∃ res, validate_model_config env (PyVal.dict config) = Except.ok res ∧
        res.1 = false ∧ ("\x27use_gpu\x27 must be a boolean if specified") ∈ res.2 ∧ res.2 ≠ []) ∧
    (∀ nv, dlookup config "num_gpu" = some nv → nv.isInt = false →
      ∃ res, validate_model_config env (PyVal.dict config) = Except.ok res ∧
        res.1 = false ∧ ("\x27num_gpu\x27 must be an integer if specified") ∈ res.2 ∧ res.2 ≠ []) := by
  have hslook : dlookup config "model_source" = some (PyVal.str "Ollama") := by
    cases hs : dlookup config "model_source" with
    | none => simp [dgetD, hs] at hsrc
    | some sv => simp [dgetD, hs] at hsrc; rw [hsrc]
  obtain ⟨uv, hu, huv⟩ :
      ∃ uv, dlookup config "use_remote_model" = some uv ∧ truthy uv = false := by
    cases hu : dlookup config "use_remote_model" with
    | none => simp [dgetD, hu, truthy] at hurm
    | some uv => exact ⟨uv, rfl, by simpa [dgetD, hu] using hurm⟩
  obtain ⟨e1, h1⟩ := checkReqField_dict config "use_remote_model" PyVal.isBool
    "\x27use_remote_model\x27 must be a boolean (true/false)" []
  obtain ⟨e3, h3⟩ := checkReqField_dict config "model_name" PyVal.isStr
    "\x27model_name\x27 must be a string" e1
  obtain ⟨e4, h4⟩ := checkReqField_dict config "model_parameters" PyVal.isDict
    "\x27model_parameters\x27 must be a dictionary" (e1 ++ e3)
  obtain ⟨gpuE, hgpuEq, hgpuProp⟩ := checkOptField_dict_shape config "use_gpu" PyVal.isBool
    "\x27use_gpu\x27 must be a boolean if specified" (e1 ++ (e3 ++ e4))
  obtain ⟨numE, hnumEq, hnumProp⟩ := checkOptField_dict_shape config "num_gpu" PyVal.isInt
    "\x27num_gpu\x27 must be an integer if specified" (e1 ++ (e3 ++ (e4 ++ gpuE)))
  have hmain : validate_model_config env (PyVal.dict config) =
      Except.ok ((e1 ++ (e3 ++ (e4 ++ (gpuE ++ numE)))).isEmpty,
        e1 ++ (e3 ++ (e4 ++ (gpuE ++ numE)))) := by
    unfold validate_model_config
    simp [h1, h3, h4, hgpuEq, hnumEq, except_bind_ok, pure_bind, pyInOp, pyGetItem, pyGet,
      hasKey, hslook, dgetD, hu, huv]
  constructor
  · intro gv hgv hbad
    have hg : gpuE = ["\x27use_gpu\x27 must be a boolean if specified"] := hgpuProp gv hgv hbad
    refine ⟨_, hmain, ?_, ?_, ?_⟩
    · simp [hg]
    · simp [hg]
    · simp [hg]
  · intro nv hnv hbad
    have hn : numE = ["\x27num_gpu\x27 must be an integer if specified"] := hnumProp nv hnv hbad
    refine ⟨_, hmain, ?_, ?_, ?_⟩
    · simp [hn]
    · simp [hn]
    · simp [hn]

/-- C2 witness: the amended theorem applied to a concrete local-Ollama
configuration carrying a string-valued `use_gpu`. -/
theorem c2_witness :
    (truthy (dgetD [("use_remote_model", PyVal.bool false), ("model_source", PyVal.str "Ollama"),
        ("model_name", PyVal.str "m"), ("model_parameters", PyVal.dict []),
        ("use_gpu", PyVal.str "yes")] "use_remote_model" (PyVal.bool true)) = false) ∧
    (dgetD [("use_remote_model", PyVal.bool false), ("model_source", PyVal.str "Ollama"),
        ("model_name", PyVal.str "m"), ("model_parameters", PyVal.dict []),
        ("use_gpu", PyVal.str "yes")] "model_source" PyVal.none = PyVal.str "Ollama") ∧
    (dlookup [("use_remote_model", PyVal.bool false), ("model_source", PyVal.str "Ollama"),
        ("model_name", PyVal.str "m"), ("model_parameters", PyVal.dict []),
        ("use_gpu", PyVal.str "yes")] "use_gpu" = some (PyVal.str "yes")) ∧
    ((PyVal.str "yes").isBool = false) ∧
    (∃ res, validate_model_config (fun _ => Option.none)
        (PyVal.dict [("use_remote_model", PyVal.bool false), ("model_source", PyVal.str "Ollama"),
          ("model_name", PyVal.str "m"), ("model_parameters", PyVal.dict []),
          ("use_gpu", PyVal.str "yes")]) = Except.ok res ∧
      res.1 = false ∧ ("\x27use_gpu\x27 must be a boolean if specified") ∈ res.2 ∧ res.2 ≠ []) :=
  ⟨rfl, rfl, rfl, rfl,
    (c2_gpu_checks (fun _ => Option.none)
      [("use_remote_model", PyVal.bool false), ("model_source", PyVal.str "Ollama"),
       ("model_name", PyVal.str "m"), ("model_parameters", PyVal.dict []),
       ("use_gpu", PyVal.str "yes")] rfl rfl).1 (PyVal.str "yes") rfl rfl⟩

/-- C5: when all four section configurations are individually invalid (each
validator returns `is_valid` false), `validate_all_configs` raises exactly one
`ConfigValidationError` whose message contains all four section-header strings
and every per-section error message; and it raises if and only if at least one
section is invalid, returning normally otherwise. -/
theorem c5_validate_all_aggregation (env : Env) (m p r t : PyVal) :
    (∀ merrs perrs rerrs terrs,
      validate_model_config env m = Except.ok (false, merrs) →
      validate_prompt_config p = Except.ok (false, perrs) →
      validate_response_config r = Except.ok (false, rerrs) →
      validate_theme_config t = Except.ok (false, terrs) →
      ∃ msg, validate_all_configs env m p r t = ValidateOutcome.configError msg ∧
        SubstrOf "Model Configuration Errors:" msg ∧
        SubstrOf "Prompt Configuration Errors:" msg ∧
        SubstrOf "Response Configuration Errors:" msg ∧
        SubstrOf "Theme Configuration Errors:" msg ∧
        (∀ e ∈ merrs, SubstrOf e msg) ∧ (∀ e ∈ perrs, SubstrOf e msg) ∧
        (∀ e ∈ rerrs, SubstrOf e msg) ∧ (∀ e ∈ terrs, SubstrOf e msg)) ∧
    (validate_all_configs env m p r t = ValidateOutcome.ok ↔
      ((∃ l, validate_model_config env m = Except.ok (true, l)) ∧
       (∃ l, validate_prompt_config p = Except.ok (true, l)) ∧
       (∃ l, validate_response_config r = Except.ok (true, l)) ∧
       (∃ l, validate_theme_config t = Except.ok (true, l)))) := by
  constructor
  · intro merrs perrs rerrs terrs hm hp hr ht
    refine ⟨"Configuration validation failed:\n\n" ++ joinLines
      ((("Model Configuration Errors:" :: merrs.map (fun e => "  - " ++ e)) ++
        ("Prompt Configuration Errors:" :: perrs.map (fun e => "  - " ++ e)) ++
        ("Response Configuration Errors:" :: rerrs.map (fun e => "  - " ++ e)) ++
        ("Theme Configuration Errors:" :: terrs.map (fun e => "  - " ++ e)))),
      ?_, ?_, ?_, ?_, ?_, ?_, ?_, ?_, ?_⟩
    · unfold validate_all_configs
      rw [hm, hp, hr, ht]
      rfl
    · exact (substrOf_joinLines (by simp)).append_left _
    · exact (substrOf_joinLines (by simp)).append_left _
    · exact (substrOf_joinLines (by simp)).append_left _
    · exact (substrOf_joinLines (by simp)).append_left _
    · intro e he
      refine ((substrOf_dash e).trans (substrOf_joinLines ?_)).append_left _
      exact List.mem_append_left _ (List.mem_append_left _ (List.mem_append_left _
        (List.mem_cons_of_mem _ (List.mem_map_of_mem _ he))))
    · intro e he
      refine ((substrOf_dash e).trans (substrOf_joinLines ?_)).append_left _
      exact List.mem_append_left _ (List.mem_append_left _ (List.mem_append_right _
        (List.mem_cons_of_mem _ (List.mem_map_of_mem _ he))))
    · intro e he
      refine ((substrOf_dash e).trans (substrOf_joinLines ?_)).append_left _
      exact List.mem_append_left _ (List.mem_append_right _
        (List.mem_cons_of_mem _ (List.mem_map_of_mem _ he)))
    · intro e he
      refine ((substrOf_dash e).trans (substrOf_joinLines ?_)).append_left _
      exact List.mem_append_right _ (List.mem_cons_of_mem _ (List.mem_map_of_mem _ he))
  · cases hm : validate_model_config env m with
    | error e => simp [validate_all_configs, hm]
    | ok mres =>
      obtain ⟨mv, merrs⟩ := mres
      cases hp : validate_prompt_config p with
      | error e => simp [validate_all_configs, hm, hp]
      | ok pres =>
        obtain ⟨pv, perrs⟩ := pres
        cases hr : validate_response_config r with
        | error e => simp [validate_all_configs, hm, hp, hr]
        | ok rres =>
          obtain ⟨rv, rerrs⟩ := rres
          cases ht : validate_theme_config t with
          | error e => simp [validate_all_configs, hm, hp, hr, ht]
          | ok tres =>
            obtain ⟨tv, terrs⟩ := tres
            cases mv <;> cases pv <;> cases rv <;> cases tv <;>
              simp [validate_all_configs, hm, hp, hr, ht]

/-- C5 witness: the theorem applied to four concrete sections that are each
individually invalid. -/
theorem c5_witness :
    (validate_model_config (fun _ => Option.none) (PyVal.dict []) = Except.ok (false,
      ["Missing required field: \x27use_remote_model\x27",
       "Missing required field: \x27model_source\x27",
       "Missing required field: \x27model_name\x27",
       "Missing required field: \x27model_parameters\x27"])) ∧
    (validate_prompt_config (PyVal.dict []) = Except.ok (false,
      ["Missing required field: \x27input_variables\x27",
       "Missing required field: \x27template\x27"])) ∧
    (validate_response_config (PyVal.dict [("speak_responses", PyVal.str "x")]) = Except.ok (false,
      ["\x27speak_responses\x27 must be a boolean if specified"])) ∧
    (validate_theme_config (PyVal.dict [("font", PyVal.str "x")]) = Except.ok (false,
      ["\x27font\x27 must be a list if specified"])) ∧
    (∃ msg, validate_all_configs (fun _ => Option.none) (PyVal.dict []) (PyVal.dict [])
        (PyVal.dict [("speak_responses", PyVal.str "x")]) (PyVal.dict [("font", PyVal.str "x")]) =
        ValidateOutcome.configError msg ∧
      SubstrOf "Model Configuration Errors:" msg ∧
      SubstrOf "Prompt Configuration Errors:" msg ∧
      SubstrOf "Response Configuration Errors:" msg ∧
      SubstrOf "Theme Configuration Errors:" msg ∧
      (∀ e ∈ ["Missing required field: \x27use_remote_model\x27",
        "Missing required field: \x27model_source\x27",
        "Missing required field: \x27model_name\x27",
        "Missing required field: \x27model_parameters\x27"], SubstrOf e msg) ∧
      (∀ e ∈ ["Missing required field: \x27input_variables\x27",
        "Missing required field: \x27template\x27"], SubstrOf e msg) ∧
      (∀ e ∈ ["\x27speak_responses\x27 must be a boolean if specified"], SubstrOf e msg) ∧
      (∀ e ∈ ["\x27font\x27 must be a list if specified"], SubstrOf e msg)) :=
  ⟨rfl, rfl, rfl, rfl,
    (c5_validate_all_aggregation (fun _ => Option.none) (PyVal.dict []) (PyVal.dict [])
      (PyVal.dict [("speak_responses", PyVal.str "x")])
      (PyVal.dict [("font", PyVal.str "x")])).1
      ["Missing required field: \x27use_remote_model\x27",
       "Missing required field: \x27model_source\x27",
       "Missing required field: \x27model_name\x27",
       "Missing required field: \x27model_parameters\x27"]
      ["Missing required field: \x27input_variables\x27",
       "Missing required field: \x27template\x27"]
      ["\x27speak_responses\x27 must be a boolean if specified"]
      ["\x27font\x27 must be a list if specified"]
      rfl rfl rfl rfl⟩

/-- C6: for a prompt configuration whose `template` is a string and whose
`input_variables` is a list, every listed name `v` whose `{v}` placeholder
does not occur in the template makes `validate_prompt_config` return
`is_valid` false with an error message naming `v`; conversely, when every
listed name occurs as a placeholder (both required fields present with the
correct types), it returns `is_valid` true with an empty error list. -/
theorem c6_prompt_placeholder_validation (config : PyDict) (tmpl : String) (vars : List PyVal)
    (hiv : dlookup config "input_variables" = some (PyVal.list vars))
    (htm : dlookup config "template" = some (PyVal.str tmpl)) :
    (∀ v, v ∈ vars → ¬ SubstrOf ("\x7b" ++ pyStr v ++ "\x7d") tmpl →
      ∃ res, validate_prompt_config (PyVal.dict config) = Except.ok res ∧
        res.1 = false ∧
        ("Input variable \x27" ++ pyStr v ++ "\x27 not found in template string") ∈ res.2) ∧
    ((∀ v ∈ vars, SubstrOf ("\x7b" ++ pyStr v ++ "\x7d") tmpl) →
      validate_prompt_config (PyVal.dict config) = Except.ok (true, [])) := by
  obtain ⟨es, hes, hmem, hall⟩ := promptVarLoop_str_shape tmpl vars
  have hmain : validate_prompt_config (PyVal.dict config) = Except.ok (es.isEmpty, es) := by
    unfold validate_prompt_config
    rw [checkReqField_dict_ok config "input_variables" PyVal.isList _ [] _ hiv rfl,
      except_bind_ok]
    rw [checkReqField_dict_ok config "template" PyVal.isStr _ [] _ htm rfl, except_bind_ok]
    simp [pyInOp, hasKey, hiv, htm, pyGetItem, pyIter, hes, except_bind_ok, pure_bind]
  constructor
  · intro v hv hns
    have hfalse : strInB ("\x7b" ++ pyStr v ++ "\x7d") tmpl = false := by
      cases hx : strInB ("\x7b" ++ pyStr v ++ "\x7d") tmpl with
      | true => exact absurd ((strInB_iff _ _).mp hx) hns
      | false => rfl
    have hin := hmem v hv hfalse
    refine ⟨(es.isEmpty, es), hmain, ?_, hin⟩
    cases es with
    | nil => cases hin
    | cons a as => rfl
  · intro hforall
    have : es = [] := hall (fun v hv => (strInB_iff _ _).mpr (hforall v hv))
    rw [hmain, this]
    rfl

/-- C6 witness: the theorem applied to a concrete prompt configuration in
which `ctx` is listed but has no `{ctx}` placeholder in the template. -/
theorem c6_witness :
    (dlookup [("input_variables", PyVal.list [PyVal.str "question", PyVal.str "ctx"]),
        ("template", PyVal.str "Answer: \x7bquestion\x7d")] "input_variables" =
      some (PyVal.list [PyVal.str "question", PyVal.str "ctx"])) ∧
    (dlookup [("input_variables", PyVal.list [PyVal.str "question", PyVal.str "ctx"]),
        ("template", PyVal.str "Answer: \x7bquestion\x7d")] "template" =
      some (PyVal.str "Answer: \x7bquestion\x7d")) ∧
    (PyVal.str "ctx" ∈ [PyVal.str "question", PyVal.str "ctx"]) ∧
    (¬ SubstrOf ("\x7b" ++ pyStr (PyVal.str "ctx") ++ "\x7d") "Answer: \x7bquestion\x7d") ∧
    (∃ res, validate_prompt_config
        (PyVal.dict [("input_variables", PyVal.list [PyVal.str "question", PyVal.str "ctx"]),
          ("template", PyVal.str "Answer: \x7bquestion\x7d")]) = Except.ok res ∧
      res.1 = false ∧
      ("Input variable \x27" ++ pyStr (PyVal.str "ctx") ++ "\x27 not found in template string") ∈ res.2) :=
  ⟨rfl, rfl, by decide,
    fun hs => absurd ((strInB_iff _ _).mpr hs) (by decide),
    (c6_prompt_placeholder_validation
      [("input_variables", PyVal.list [PyVal.str "question", PyVal.str "ctx"]),
       ("template", PyVal.str "Answer: \x7bquestion\x7d")]
      "Answer: \x7bquestion\x7d" [PyVal.str "question", PyVal.str "ctx"] rfl rfl).1
      (PyVal.str "ctx") (by decide)
      (fun hs => absurd ((strInB_iff _ _).mpr hs) (by decide))⟩

/-- C8: loading a configuration file that was just written as JSON returns
exactly the written value — `load_config(write(x)) == x` with no key added,
removed or altered (the JSON encoding/decoding pair is the Python standard
library's, modelled as value-exact). -/
theorem c8_load_config_round_trip (fs : FileSys) (filepath : String) (x : PyVal) :
    load_config (writeJsonFile fs filepath x) filepath = LoadResult.ok x := by
  simp [load_config, writeJsonFile]

/-- C9: when `AppConfig.__init__` succeeds on a loaded configuration whose
`theme` section is absent or a mapping, the resulting `theme_config` mapping
always contains the key `"app_name"`: the theme's own `app_name` entry is kept
(the section is returned unchanged), otherwise the top-level `app_name`
(default `"LLM Voice Chat"`) is inserted and no other theme field is
changed. -/
theorem c9_theme_app_name (env : Env) (fs : FileSys) (validate : Bool) (config : PyDict)
    (s : AppConfigState)
    (hload : load_config fs ((env "CONFIG_PATH").getD _DEFAULT_CONFIG_PATH) =
      LoadResult.ok (PyVal.dict config))
    (hok : AppConfig_init env fs validate = InitOutcome.ok s)
    (hth : dlookup config "theme" = Option.none ∨
      ∃ t0, dlookup config "theme" = some (PyVal.dict t0)) :
    (∃ t, s.theme_config = PyVal.dict t ∧ hasKey t "app_name" = true) ∧
    (∀ t0, dlookup config "theme" = some (PyVal.dict t0) → hasKey t0 "app_name" = true →
      s.theme_config = PyVal.dict t0) ∧
    (∀ t0, dlookup config "theme" = some (PyVal.dict t0) → hasKey t0 "app_name" = false →
      s.theme_config = PyVal.dict (dictSet t0 "app_name"
        (dgetD config "app_name" (PyVal.str "LLM Voice Chat"))) ∧
      (∀ k, k ≠ "app_name" →
        dlookup (dictSet t0 "app_name" (dgetD config "app_name" (PyVal.str "LLM Voice Chat"))) k =
          dlookup t0 k)) ∧
    (dlookup config "theme" = Option.none →
      s.theme_config = PyVal.dict [("app_name",
        dgetD config "app_name" (PyVal.str "LLM Voice Chat"))]) := by
  by_cases hkm : hasKey config "model" = true
  swap
  · rw [Bool.not_eq_true] at hkm
    simp [AppConfig_init, hload, hkm] at hok
  by_cases hkp : hasKey config "prompt" = true
  swap
  · rw [Bool.not_eq_true] at hkp
    simp [AppConfig_init, hload, hkm, hkp] at hok
  simp only [hasKey] at hkm hkp
  rcases hth with hnone | ⟨t0, ht0⟩
  · simp only [AppConfig_init, hload, hkm, hkp, Bool.not_true, Bool.false_eq_true, if_false,
      dgetD, hnone, Option.getD_none, pyInOp, hasKey, dlookup, Option.isSome_none] at hok
    have hs : s = ⟨dgetD config "app_name" (PyVal.str "LLM Voice Chat"),
        dgetD config "version" (PyVal.str "1.0.0"),
        dgetD config "model" PyVal.none, dgetD config "prompt" PyVal.none,
        dgetD config "response" (PyVal.dict []),
        PyVal.dict [("app_name", dgetD config "app_name" (PyVal.str "LLM Voice Chat"))]⟩ := by
      cases validate with
      | true =>
        rw [if_pos rfl] at hok
        exact appConfigValidate_ok_inv env s _ hok
      | false =>
        rw [if_neg Bool.false_ne_true] at hok
        injection hok with h1
        exact h1.symm
    subst hs
    refine ⟨⟨_, rfl, by simp [hasKey, dlookup]⟩, ?_, ?_, fun _ => rfl⟩
    · intro t0 h htrue
      rw [hnone] at h
      cases h
    · intro t0 h hfalse
      rw [hnone] at h
      cases h
  · cases hk0 : (dlookup t0 "app_name").isSome with
    | true =>
      simp only [AppConfig_init, hload, hkm, hkp, Bool.not_true, Bool.false_eq_true, if_false,
        dgetD, ht0, Option.getD_some, pyInOp, hasKey, hk0] at hok
      have hs : s = ⟨dgetD config "app_name" (PyVal.str "LLM Voice Chat"),
          dgetD config "version" (PyVal.str "1.0.0"),
          dgetD config "model" PyVal.none, dgetD config "prompt" PyVal.none,
          dgetD config "response" (PyVal.dict []), PyVal.dict t0⟩ := by
        cases validate with
        | true =>
          rw [if_pos rfl] at hok
          exact appConfigValidate_ok_inv env s _ hok
        | false =>
          rw [if_neg Bool.false_ne_true] at hok
          injection hok with h1
          exact h1.symm
      subst hs
      refine ⟨⟨t0, rfl, by simp [hasKey, hk0]⟩, ?_, ?_, ?_⟩
      · intro t0' h _
        rw [ht0] at h
        simp only [Option.some.injEq, PyVal.dict.injEq] at h
        rw [← h]
      · intro t0' h hfalse
        rw [ht0] at h
        simp only [Option.some.injEq, PyVal.dict.injEq] at h
        subst h
        simp only [hasKey] at hfalse
        rw [hk0] at hfalse
        cases hfalse
      · intro h
        rw [ht0] at h
        cases h
    | false =>
      simp only [AppConfig_init, hload, hkm, hkp, Bool.not_true, Bool.false_eq_true, if_false,
        dgetD, ht0, Option.getD_some, pyInOp, hasKey, hk0] at hok
      have hs : s = ⟨dgetD config "app_name" (PyVal.str "LLM Voice Chat"),
          dgetD config "version" (PyVal.str "1.0.0"),
          dgetD config "model" PyVal.none, dgetD config "prompt" PyVal.none,
          dgetD config "response" (PyVal.dict []),
          PyVal.dict (dictSet t0 "app_name"
            (dgetD config "app_name" (PyVal.str "LLM Voice Chat")))⟩ := by
        cases validate with
        | true =>
          rw [if_pos rfl] at hok
          exact appConfigValidate_ok_inv env s _ hok
        | false =>
          rw [if_neg Bool.false_ne_true] at hok
          injection hok with h1
          exact h1.symm
      subst hs
      refine ⟨⟨_, rfl, by simp [hasKey, dlookup_dictSet_self]⟩, ?_, ?_, ?_⟩
      · intro t0' h htrue
        rw [ht0] at h
        simp only [Option.some.injEq, PyVal.dict.injEq] at h
        subst h
        simp only [hasKey] at htrue
        rw [hk0] at htrue
        cases htrue
      · intro t0' h hfalse
        rw [ht0] at h
        simp only [Option.some.injEq, PyVal.dict.injEq] at h
        subst h
        exact ⟨rfl, fun k hk => dlookup_dictSet_ne t0 "app_name" k _ hk⟩
      · intro h
        rw [ht0] at h
        cases h

/-- C9 witness: the theorem applied to a concrete configuration file whose
theme section has no `app_name`; the initialized state's theme received the
default top-level application name. -/
theorem c9_witness :
    (load_config
        (fun p => if p = "./config/unified_config_example.json" then
          some (JsonFile.wellFormed (PyVal.dict
            [("model", PyVal.dict [("use_remote_model", PyVal.bool false),
                ("model_source", PyVal.str "Ollama"), ("model_name", PyVal.str "m"),
                ("model_parameters", PyVal.dict [])]),
             ("prompt", PyVal.dict [("input_variables", PyVal.list [PyVal.str "question"]),
                ("template", PyVal.str "Q \x7bquestion\x7d")]),
             ("theme", PyVal.dict [("source_theme", PyVal.str "soft")])]))
          else Option.none)
        (((fun _ => Option.none : Env) "CONFIG_PATH").getD _DEFAULT_CONFIG_PATH) =
      LoadResult.ok (PyVal.dict
        [("model", PyVal.dict [("use_remote_model", PyVal.bool false),
            ("model_source", PyVal.str "Ollama"), ("model_name", PyVal.str "m"),
            ("model_parameters", PyVal.dict [])]),
         ("prompt", PyVal.dict [("input_variables", PyVal.list [PyVal.str "question"]),
            ("template", PyVal.str "Q \x7bquestion\x7d")]),
         ("theme", PyVal.dict [("source_theme", PyVal.str "soft")])])) ∧
    (AppConfig_init (fun _ => Option.none)
        (fun p => if p = "./config/unified_config_example.json" then
          some (JsonFile.wellFormed (PyVal.dict
            [("model", PyVal.dict [("use_remote_model", PyVal.bool false),
                ("model_source", PyVal.str "Ollama"), ("model_name", PyVal.str "m"),
                ("model_parameters", PyVal.dict [])]),
             ("prompt", PyVal.dict [("input_variables", PyVal.list [PyVal.str "question"]),
                ("template", PyVal.str "Q \x7bquestion\x7d")]),
             ("theme", PyVal.dict [("source_theme", PyVal.str "soft")])]))
          else Option.none) true =
      InitOutcome.ok ⟨PyVal.str "LLM Voice Chat", PyVal.str "1.0.0",
        PyVal.dict [("use_remote_model", PyVal.bool false), ("model_source", PyVal.str "Ollama"),
          ("model_name", PyVal.str "m"), ("model_parameters", PyVal.dict [])],
        PyVal.dict [("input_variables", PyVal.list [PyVal.str "question"]),
          ("template", PyVal.str "Q \x7bquestion\x7d")],
        PyVal.dict [],
        PyVal.dict [("source_theme", PyVal.str "soft"),
          ("app_name", PyVal.str "LLM Voice Chat")]⟩) ∧
    (∃ t, (⟨PyVal.str "LLM Voice Chat", PyVal.str "1.0.0",
        PyVal.dict [("use_remote_model", PyVal.bool false), ("model_source", PyVal.str "Ollama"),
          ("model_name", PyVal.str "m"), ("model_parameters", PyVal.dict [])],
        PyVal.dict [("input_variables", PyVal.list [PyVal.str "question"]),
          ("template", PyVal.str "Q \x7bquestion\x7d")],
        PyVal.dict [],
        PyVal.dict [("source_theme", PyVal.str "soft"),
          ("app_name", PyVal.str "LLM Voice Chat")]⟩ : AppConfigState).theme_config =
        PyVal.dict t ∧ hasKey t "app_name" = true) :=
  ⟨rfl, rfl,
    (c9_theme_app_name (fun _ => Option.none)
      (fun p => if p = "./config/unified_config_example.json" then
        some (JsonFile.wellFormed (PyVal.dict
          [("model", PyVal.dict [("use_remote_model", PyVal.bool false),
              ("model_source", PyVal.str "Ollama"), ("model_name", PyVal.str "m"),
              ("model_parameters", PyVal.dict [])]),
           ("prompt", PyVal.dict [("input_variables", PyVal.list [PyVal.str "question"]),
              ("template", PyVal.str "Q \x7bquestion\x7d")]),
           ("theme", PyVal.dict [("source_theme", PyVal.str "soft")])]))
        else Option.none) true
      [("model", PyVal.dict [("use_remote_model", PyVal.bool false),
          ("model_source", PyVal.str "Ollama"), ("model_name", PyVal.str "m"),
          ("model_parameters", PyVal.dict [])]),
       ("prompt", PyVal.dict [("input_variables", PyVal.list [PyVal.str "question"]),
          ("template", PyVal.str "Q \x7bquestion\x7d")]),
       ("theme", PyVal.dict [("source_theme", PyVal.str "soft")])]
      ⟨PyVal.str "LLM Voice Chat", PyVal.str "1.0.0",
        PyVal.dict [("use_remote_model", PyVal.bool false), ("model_source", PyVal.str "Ollama"),
          ("model_name", PyVal.str "m"), ("model_parameters", PyVal.dict [])],
        PyVal.dict [("input_variables", PyVal.list [PyVal.str "question"]),
          ("template", PyVal.str "Q \x7bquestion\x7d")],
        PyVal.dict [],
        PyVal.dict [("source_theme", PyVal.str "soft"),
          ("app_name", PyVal.str "LLM Voice Chat")]⟩
      rfl rfl
      (Or.inr ⟨[("source_theme", PyVal.str "soft")], rfl⟩)).1⟩

/-- C4: with chat history enabled and a non-empty history, the local (Ollama)
branch invokes its chain on the header `"Previous conversation:\n"`, then one
`"Role: content"` line per turn in order joined by newlines, then `"\n\n"`,
then the raw current message; in particular for the history
`[user: "hi", assistant: "hello"]` the combined string is
`"Previous conversation:\nUser: hi\nAssistant: hello\n\n"` followed by the
message. -/
theorem c4_ollama_combined_string (message : String) (h : List Turn)
    (llm : LLMHandle) (fmt : String → String) (hne : h ≠ []) :
    _get_ollama_response message (some h) llm fmt true =
      llm.invokeText (fmt ("Previous conversation:\n" ++
        joinLines (h.map (fun t =>
          (if t.role = PyVal.str "user" then "User" else "Assistant") ++ ": " ++ pyStr t.content)) ++
        ("\n\n" ++ message))) ∧
    _get_ollama_response message
        (some [⟨PyVal.str "user", PyVal.str "hi"⟩, ⟨PyVal.str "assistant", PyVal.str "hello"⟩])
        llm fmt true =
      llm.invokeText (fmt ("Previous conversation:\nUser: hi\nAssistant: hello\n\n" ++ message)) := by
  constructor
  · have hl : h.length > 0 := by
      cases h with
      | nil => exact absurd rfl hne
      | cons a t => simp
    unfold _get_ollama_response
    simp [hl, historyToLine_eq_fun, String.append_assoc]
  · rfl

/-- C4 witness: the theorem applied at the claim's own example history. -/
theorem c4_witness :
    ([⟨PyVal.str "user", PyVal.str "hi"⟩, ⟨PyVal.str "assistant", PyVal.str "hello"⟩] : List Turn) ≠ [] ∧
    (_get_ollama_response "and then?"
        (some [⟨PyVal.str "user", PyVal.str "hi"⟩, ⟨PyVal.str "assistant", PyVal.str "hello"⟩])
        ⟨fun _ => ⟨""⟩, fun s => s⟩ (fun s => s) true =
      ("Previous conversation:\nUser: hi\nAssistant: hello\n\n" ++ "and then?")) :=
  ⟨by decide,
    (c4_ollama_combined_string "and then?"
      [⟨PyVal.str "user", PyVal.str "hi"⟩, ⟨PyVal.str "assistant", PyVal.str "hello"⟩]
      ⟨fun _ => ⟨""⟩, fun s => s⟩ (fun s => s) (by decide)).2⟩

/-- C7: with chat history enabled and a non-empty history, the remote (OpenAI)
branch invokes the client on one role-tagged message per turn in order (role
`"user"` becomes a human message, other turns AI messages, contents unchanged)
followed by a final human message carrying the template-formatted current
message; with history disabled only the formatted current message is sent. -/
theorem c7_openai_message_sequence (message : String) (h : List Turn)
    (llm : LLMHandle) (fmt : String → String) (hne : h ≠ []) :
    (_get_open_ai_response message (some h) llm fmt true =
      (llm.invokeMessages (h.map (fun t =>
        if t.role = PyVal.str "user" then ChatMessage.humanMessage t.content
        else ChatMessage.aiMessage t.content) ++
        [ChatMessage.humanMessage (PyVal.str (fmt message))])).content) ∧
    (∀ message_history : Option (List Turn),
      _get_open_ai_response message message_history llm fmt false =
        (llm.invokeMessages [ChatMessage.humanMessage (PyVal.str (fmt message))]).content) := by
  constructor
  · have hl : h.length > 0 := by
      cases h with
      | nil => exact absurd rfl hne
      | cons a t => simp
    unfold _get_open_ai_response
    simp [hl, historyToMessage_eq_fun]
  · intro message_history
    unfold _get_open_ai_response
    simp

/-- C7 witness: the theorem applied at a concrete two-turn history and a
concrete client. -/
theorem c7_witness :
    ([⟨PyVal.str "user", PyVal.str "hi"⟩, ⟨PyVal.str "assistant", PyVal.str "hello"⟩] : List Turn) ≠ [] ∧
    (_get_open_ai_response "q"
        (some [⟨PyVal.str "user", PyVal.str "hi"⟩, ⟨PyVal.str "assistant", PyVal.str "hello"⟩])
        ⟨fun msgs => ⟨toString msgs.length⟩, fun s => s⟩ (fun s => s) true = "3") :=
  ⟨by decide,
    by
      have := (c7_openai_message_sequence "q"
        [⟨PyVal.str "user", PyVal.str "hi"⟩, ⟨PyVal.str "assistant", PyVal.str "hello"⟩]
        ⟨fun msgs => ⟨toString msgs.length⟩, fun s => s⟩ (fun s => s) (by decide)).1
      simpa using this⟩

/-- C10: in both dispatch branches a history turn whose role is anything other
than `"user"` is treated as an assistant turn — an AI message in the remote
branch and an `"Assistant:"` transcript line in the local branch — and the
turn is kept at its position in the sequence rather than dropped or rejected. -/
theorem c10_nonuser_roles_become_assistant (role content : PyVal)
    (hrole : role ≠ PyVal.str "user") (pre post : List Turn) (message : String)
    (llm : LLMHandle) (fmt : String → String) :
    (_get_open_ai_response message (some (pre ++ ⟨role, content⟩ :: post)) llm fmt true =
      (llm.invokeMessages (pre.map historyToMessage ++
        ChatMessage.aiMessage content :: (post.map historyToMessage ++
        [ChatMessage.humanMessage (PyVal.str (fmt message))]))).content) ∧
    (_get_ollama_response message (some (pre ++ ⟨role, content⟩ :: post)) llm fmt true =
      llm.invokeText (fmt ("Previous conversation:\n" ++
        joinLines (pre.map historyToLine ++
          ("Assistant: " ++ pyStr content) :: post.map historyToLine) ++
        ("\n\n" ++ message)))) := by
  have hl : (pre ++ ⟨role, content⟩ :: post).length > 0 := by simp
  constructor
  · unfold _get_open_ai_response
    simp [hl, historyToMessage, hrole]
  · unfold _get_ollama_response
    simp [hl, historyToLine, hrole, String.append_assoc]

/-- C3: both `load_model` and `get_llm_response` dispatch on the pair
`(use_remote_model, model_source)`: `(true, "OpenAI")` takes the remote
branch, `(false, "Ollama")` the local branch, and every other combination of
the pair raises `ValueError("Model configuration not yet supported.")`
without producing a result. -/
theorem c3_dispatch_on_pair (config : PyDict) (b : Bool) (src nm : String) (ps : PyDict)
    (message : String) (history : Option (List Turn)) (llm : LLMHandle) (fmt : String → String)
    (hurm : dlookup config "use_remote_model" = some (PyVal.bool b))
    (hsrc : dlookup config "model_source" = some (PyVal.str src))
    (hnm : dlookup config "model_name" = some (PyVal.str nm))
    (hps : dlookup config "model_parameters" = some (PyVal.dict ps)) :
    ((b = true ∧ src = "OpenAI") →
      load_model config = Except.ok (LoadedModel.chatOpenAI (PyVal.str nm) ps) ∧
      get_llm_response message history config llm fmt =
        Except.ok (_get_open_ai_response message history llm fmt
          (truthy (dgetD config "send_chat_history" (PyVal.bool true))))) ∧
    ((b = false ∧ src = "Ollama") →
      load_model config = Except.ok (LoadedModel.ollamaLLM (PyVal.str nm)
        (if truthy (dgetD config "use_gpu" (PyVal.bool false))
         then dgetD config "num_gpu" (PyVal.int 1) else PyVal.int 0) ps) ∧
      get_llm_response message history config llm fmt =
        Except.ok (_get_ollama_response message history llm fmt
          (truthy (dgetD config "send_chat_history" (PyVal.bool true))))) ∧
    (¬ (b = true ∧ src = "OpenAI") → ¬ (b = false ∧ src = "Ollama") →
      load_model config = Except.error (PyErr.valueError "Model configuration not yet supported.") ∧
      get_llm_response message history config llm fmt =
        Except.error (PyErr.valueError "Model configuration not yet supported.")) := by
  have hget : dgetD config "use_remote_model" (PyVal.bool false) = PyVal.bool b := by
    simp [dgetD, hurm]
  refine ⟨?_, ?_, ?_⟩
  · rintro ⟨rfl, rfl⟩
    constructor
    · unfold load_model
      simp [hget, truthy, hsrc, _load_open_ai_model, ditem, hnm, hps]
      rfl
    · unfold get_llm_response
      simp [hget, truthy, hsrc]
  · rintro ⟨rfl, rfl⟩
    constructor
    · unfold load_model
      simp [hget, truthy, hsrc, _pull_ollama_model, _load_ollama_model, ditem, hnm, hps]
      rfl
    · unfold get_llm_response
      simp [hget, truthy, hsrc]
  · intro hnotR hnotL
    cases b with
    | true =>
      have hsrcne : src ≠ "OpenAI" := fun hs => hnotR ⟨rfl, hs⟩
      constructor
      · unfold load_model
        simp [hget, truthy, hsrc, hsrcne]
      · unfold get_llm_response
        simp [hget, truthy, hsrc, hsrcne]
    | false =>
      have hsrcne : src ≠ "Ollama" := fun hs => hnotL ⟨rfl, hs⟩
      constructor
      · unfold load_model
        simp [hget, truthy, hsrc, hsrcne]
      · unfold get_llm_response
        simp [hget, truthy, hsrc, hsrcne]

/-- C3 witness: the theorem applied at a concrete configuration carrying the
unsupported pair `(true, "Ollama")`, plus (for the same configuration with
`use_remote_model` flipped) the supported local pair. -/
theorem c3_witness :
    (dlookup [("use_remote_model", PyVal.bool true), ("model_source", PyVal.str "Ollama"),
        ("model_name", PyVal.str "m"), ("model_parameters", PyVal.dict [])]
      "use_remote_model" = some (PyVal.bool true)) ∧
    (load_model [("use_remote_model", PyVal.bool true), ("model_source", PyVal.str "Ollama"),
        ("model_name", PyVal.str "m"), ("model_parameters", PyVal.dict [])] =
      Except.error (PyErr.valueError "Model configuration not yet supported.")) ∧
    (get_llm_response "q" Option.none
        [("use_remote_model", PyVal.bool true), ("model_source", PyVal.str "Ollama"),
         ("model_name", PyVal.str "m"), ("model_parameters", PyVal.dict [])]
        ⟨fun _ => ⟨""⟩, fun s => s⟩ (fun s => s) =
      Except.error (PyErr.valueError "Model configuration not yet supported.")) :=
  ⟨rfl,
    ((c3_dispatch_on_pair
      [("use_remote_model", PyVal.bool true), ("model_source", PyVal.str "Ollama"),
       ("model_name", PyVal.str "m"), ("model_parameters", PyVal.dict [])]
      true "Ollama" "m" [] "q" Option.none ⟨fun _ => ⟨""⟩, fun s => s⟩ (fun s => s)
      rfl rfl rfl rfl).2.2 (by decide) (by decide)).1,
    ((c3_dispatch_on_pair
      [("use_remote_model", PyVal.bool true), ("model_source", PyVal.str "Ollama"),
       ("model_name", PyVal.str "m"), ("model_parameters", PyVal.dict [])]
      true "Ollama" "m" [] "q" Option.none ⟨fun _ => ⟨""⟩, fun s => s⟩ (fun s => s)
      rfl rfl rfl rfl).2.2 (by decide) (by decide)).2⟩

/-- C10 witness: the theorem applied at a concrete `"system"`-role turn. -/
theorem c10_witness :
    (PyVal.str "system" ≠ PyVal.str "user") ∧
    (_get_open_ai_response "q" (some [⟨PyVal.str "system", PyVal.str "be brief"⟩])
        ⟨fun msgs => ⟨toString msgs.length⟩, fun s => s⟩ (fun s => s) true =
      (LLMHandle.invokeMessages ⟨fun msgs => ⟨toString msgs.length⟩, fun s => s⟩
        [ChatMessage.aiMessage (PyVal.str "be brief"),
         ChatMessage.humanMessage (PyVal.str "q")]).content) :=
  ⟨by decide,
    by
      have := (c10_nonuser_roles_become_assistant (PyVal.str "system") (PyVal.str "be brief")
        (by decide) [] [] "q" ⟨fun msgs => ⟨toString msgs.length⟩, fun s => s⟩ (fun s => s)).1
      simpa using this⟩

end LLMVoiceChat
